import Mathlib

/-!
# Verification of the AI dev team orchestration framework

A shallow embedding, in Lean 4, of the task/workflow orchestration framework
of this repository:

* the data model and the concrete agent classes of
  `agent_planner/agents` (`types.ts`, `baseAgent.ts`, `plannerAgent.ts`,
  `architectAgent.ts`, `coderAgent.ts`, `reviewerAgent.ts`, `opsAgent.ts`,
  `index.ts`),
* the `handleTask` orchestrator loop and the `Artifact` / `Workflow`
  schemas of the framework template document, and
* the parts of the engine that the repository describes but does not
  implement (workflow engine transition rules, task router, artifact
  store, run state store), modelled from the specification text.

TypeScript `throw` is modelled with `Except.error`; `Promise<T>` results
are modelled as plain values; `unknown` payloads are modelled as `String`.
-/

namespace AgentPlanner

/-- From `types.ts`: `AgentRole = 'planner' | 'architect' | 'coder' | 'reviewer' | 'ops'`. -/
inductive AgentRole where
  | planner
  | architect
  | coder
  | reviewer
  | ops
  deriving DecidableEq

/-- From `types.ts`: `AgentRef { id: string; role: AgentRole }`. -/
structure AgentRef where
  id : String
  role : AgentRole
  deriving DecidableEq

/-- From `types.ts`: the `Task` record. `metadata?: Record<string, unknown>` is
modelled as an association list with opaque string payloads. -/
structure Task where
  id : String
  projectId : String
  type : String
  title : String
  description : String
  source : Option String
  metadata : List (String × String)
  deriving DecidableEq

/-- From `types.ts`: the `Artifact` record. Note the TypeScript field
`artifactType : string` is an unconstrained string, and `createdAt` is a
string timestamp. `content: unknown` is modelled as `String`. -/
structure Artifact where
  id : String
  taskId : String
  artifactType : String
  content : String
  createdBy : AgentRef
  createdAt : String
  deriving DecidableEq

/-- From `types.ts`: `StandardsConfig` (index-signature extras omitted). -/
structure StandardsConfig where
  styleGuide : Option String
  securityGuide : Option String
  architectureGuide : Option String
  deriving DecidableEq

/-- From `types.ts`: `ProjectConfig` (repo block flattened to options). -/
structure ProjectConfig where
  id : String
  repoHost : Option String
  repoOwner : Option String
  repoName : Option String
  defaultBranch : Option String
  commands : List (String × String)
  paths : List (String × String)
  workflows : List (String × String)
  standards : Option StandardsConfig
  deriving DecidableEq

/-- From `types.ts`: `Tool { id; type; call(params) }`; the call is an opaque
fallible computation over string parameters. -/
structure Tool where
  id : String
  type : String
  call : List (String × String) → Except String String

/-- From `types.ts`: `ToolRegistry { getTool(id): Tool | undefined }`. -/
structure ToolRegistry where
  getTool : String → Option Tool

/-- From `types.ts`: `ExecutionContext` (the optional logger is omitted as a
pure-side-effect collaborator). -/
structure ExecutionContext where
  projectId : String
  projectConfig : ProjectConfig
  tools : ToolRegistry
  standards : StandardsConfig

/-- From `types.ts`: `AgentInput { task; artifacts; context }`. -/
structure AgentInput where
  task : Task
  artifacts : List Artifact
  context : ExecutionContext

/-- From `types.ts`: `nextAction: 'continue' | 'handoff' | 'done' | 'needs_human'`. -/
inductive NextAction where
  | continue
  | handoff
  | done
  | needs_human
  deriving DecidableEq

/-- From `types.ts`: `handoffTo?: AgentRef | string` — either an agent
back-reference or a workflow step identifier. -/
inductive HandoffTarget where
  | toAgent (ref : AgentRef)
  | toStep (stepId : String)
  deriving DecidableEq

/-- From `types.ts`: `AgentOutput { newArtifacts; nextAction; handoffTo? }`. -/
structure AgentOutput where
  newArtifacts : List Artifact
  nextAction : NextAction
  handoffTo : Option HandoffTarget
  deriving DecidableEq

/-- From `types.ts`: the `AgentSpec` record; `unknown`-typed fields are
modelled as opaque strings. -/
structure AgentSpec where
  name : String
  role : String
  description : String
  input : List (String × String)
  output : String
  tools_available : Option (List String)
  validation_rules : Option (List String)
  handoff_criteria : Option String
  failure_handling : Option (List String)
  deriving DecidableEq

/-- From `types.ts`: `AgentsSpecsFile { agents: Record<string, AgentSpec>; workflow_handoff? }`. -/
structure AgentsSpecsFile where
  agents : List (String × AgentSpec)
  workflow_handoff : Option (List String)
  deriving DecidableEq

/-- Record lookup on the `agents` field of `agent_specs.json`
(`specs.agents['planner']` etc. in `index.ts`). -/
def lookupSpec (specs : AgentsSpecsFile) (key : String) : Option AgentSpec :=
  match specs.agents.find? (fun p => p.1 == key) with
  | some p => some p.2
  | none => none

/-- From `baseAgent.ts`: the `Agent` interface / `BaseAgent` class: `id`,
`role`, `spec`, and the abstract `run` method. A TypeScript `throw` is an
`Except.error` carrying the error message. -/
structure Agent where
  id : String
  role : AgentRole
  spec : AgentSpec
  run : AgentInput → Except String AgentOutput

/-- From `baseAgent.ts`: `makeRef(): AgentRef { return { id: this.id, role: this.role } }`. -/
def Agent.makeRef (a : Agent) : AgentRef :=
  { id := a.id, role := a.role }

/-- From `plannerAgent.ts`: the message of the error thrown by `PlannerAgent.run`. -/
def plannerNotImplementedMsg : String :=
  "PlannerAgent.run is not implemented. Integrate with your LLM/orchestrator here."

/-- From `architectAgent.ts`: the message of the error thrown by `ArchitectAgent.run`. -/
def architectNotImplementedMsg : String :=
  "ArchitectAgent.run is not implemented. Integrate with your LLM/orchestrator here."

/-- From `coderAgent.ts`: the message of the error thrown by `CoderAgent.run`. -/
def coderNotImplementedMsg : String :=
  "CoderAgent.run is not implemented. Integrate with your LLM/orchestrator here."

/-- From `reviewerAgent.ts`: the message of the error thrown by `ReviewerAgent.run`. -/
def reviewerNotImplementedMsg : String :=
  "ReviewerAgent.run is not implemented. Integrate with your LLM/orchestrator here."

/-- From `opsAgent.ts`: the message of the error thrown by `OpsAgent.run`. -/
def opsNotImplementedMsg : String :=
  "OpsAgent.run is not implemented. Integrate with your LLM/orchestrator here."

/-- From `plannerAgent.ts`: `constructor(spec) { super('planner', 'planner', spec) }`
and a `run` that always throws. -/
def mkPlannerAgent (spec : AgentSpec) : Agent :=
  { id := "planner", role := AgentRole.planner, spec,
    run := fun _ => Except.error plannerNotImplementedMsg }

/-- From `architectAgent.ts`: `constructor(spec) { super('architect', 'architect', spec) }`
and a `run` that always throws. -/
def mkArchitectAgent (spec : AgentSpec) : Agent :=
  { id := "architect", role := AgentRole.architect, spec,
    run := fun _ => Except.error architectNotImplementedMsg }

/-- From `coderAgent.ts`: `constructor(spec) { super('coder', 'coder', spec) }`
and a `run` that always throws. -/
def mkCoderAgent (spec : AgentSpec) : Agent :=
  { id := "coder", role := AgentRole.coder, spec,
    run := fun _ => Except.error coderNotImplementedMsg }

/-- From `reviewerAgent.ts`: `constructor(spec) { super('reviewer', 'reviewer', spec) }`
and a `run` that always throws. -/
def mkReviewerAgent (spec : AgentSpec) : Agent :=
  { id := "reviewer", role := AgentRole.reviewer, spec,
    run := fun _ => Except.error reviewerNotImplementedMsg }

/-- From `opsAgent.ts`: `constructor(spec) { super('ops', 'ops', spec) }`
and a `run` that always throws. -/
def mkOpsAgent (spec : AgentSpec) : Agent :=
  { id := "ops", role := AgentRole.ops, spec,
    run := fun _ => Except.error opsNotImplementedMsg }

/-- From `index.ts`: `AgentMap = Record<AgentRole, BaseAgent>` — by its type,
exactly one agent per role. -/
structure AgentMap where
  planner : Agent
  architect : Agent
  coder : Agent
  reviewer : Agent
  ops : Agent

/-- From `index.ts`: the message of the configuration error thrown by
`createAgentsFromSpecs` when a role definition is missing. -/
def missingAgentDefsMsg : String :=
  "agent_specs.json is missing one or more required agent definitions."

/-- From `index.ts` (`createAgentsFromSpecs`): look up the five role
definitions in the specs file, throw a configuration error if any is
missing, and otherwise build the role-to-agent map. -/
def createAgentsFromSpecs (specs : AgentsSpecsFile) : Except String AgentMap :=
  match lookupSpec specs "planner", lookupSpec specs "architect", lookupSpec specs "coder",
        lookupSpec specs "reviewer", lookupSpec specs "ops" with
  | some plannerSpec, some architectSpec, some coderSpec, some reviewerSpec, some opsSpec =>
      Except.ok
        { planner := mkPlannerAgent plannerSpec,
          architect := mkArchitectAgent architectSpec,
          coder := mkCoderAgent coderSpec,
          reviewer := mkReviewerAgent reviewerSpec,
          ops := mkOpsAgent opsSpec }
  | _, _, _, _, _ => Except.error missingAgentDefsMsg

/-- From the framework template document (section 2, `Artifact`): the closed
union of artifact type tags,
`"spec" | "design" | "plan" | "patch" | "pr" | "review" | "deployment" | "log" | "note"`. -/
inductive TemplateArtifactType where
  | spec
  | design
  | plan
  | patch
  | pr
  | review
  | deployment
  | log
  | note
  deriving DecidableEq

/-- The string tag of each template artifact type, in the template's order. -/
def TemplateArtifactType.tag : TemplateArtifactType → String
  | TemplateArtifactType.spec => "spec"
  | TemplateArtifactType.design => "design"
  | TemplateArtifactType.plan => "plan"
  | TemplateArtifactType.patch => "patch"
  | TemplateArtifactType.pr => "pr"
  | TemplateArtifactType.review => "review"
  | TemplateArtifactType.deployment => "deployment"
  | TemplateArtifactType.log => "log"
  | TemplateArtifactType.note => "note"

/-- The nine artifact type tags of the template's `Artifact` union, as strings. -/
def templateArtifactTypeTags : List String :=
  ["spec", "design", "plan", "patch", "pr", "review", "deployment", "log", "note"]

/-- Follows the spec's words (section 3, `Artifact`): the claimed
"fixed closed set {spec, design, patch, review, deployment, note, log}" of
artifact type tags, written down for comparison with the source's types. -/
def specClaimedArtifactTypeTags : List String :=
  ["spec", "design", "patch", "review", "deployment", "note", "log"]

/-- From the spec (section 3, `RunState`): the overall status values
`in_progress | blocked | waiting_human | completed | failed`. The framework
template's `NextStepDecision` enumerates the first four; `failed` is added by
the spec, settable only by an explicit terminal decision or operator action. -/
inductive RunStatus where
  | in_progress
  | blocked
  | waiting_human
  | completed
  | failed
  deriving DecidableEq

/-- From the framework template (section 3, `NextStepDecision`):
`{ nextStepId: string | null, status }`. Statuses range over `RunStatus`
because the spec's failure semantics lets a transition rule issue an
explicit terminal `failed` decision. -/
structure NextStepDecision where
  nextStepId : Option String
  status : RunStatus
  deriving DecidableEq

/-- From the framework template (section 3, `WorkflowStep`): identifier,
display name, required worker role, artifact input selector, transition
rule. The per-step retry maximum comes from the spec (section 4.2 step 8,
"the step's configured maximum"). -/
structure WorkflowStep where
  id : String
  name : String
  agentRole : AgentRole
  maxRetries : Nat
  inputSelector : Task → List Artifact → List Artifact
  transition : AgentOutput → NextStepDecision

/-- From the framework template (section 3, `Workflow`): identifier, name,
applicable task types, steps. -/
structure Workflow where
  id : String
  name : String
  applicableTaskTypes : List String
  steps : List WorkflowStep

/-- From the spec (section 7, error taxonomy): dispatcher fault kinds
`Timeout` and `InvalidOutput`. -/
inductive FaultKind where
  | timeout
  | invalidOutput
  deriving DecidableEq

/-- Outcome tags for run history entries, covering the spec's history
events: advancing, repeating, retry exhaustion (`RetryBudgetExceeded`),
handoff mismatch (`UnknownHandoffTarget`), worker faults, terminal or
halting decisions. -/
inductive Outcome where
  | advanced (toStepId : String)
  | repeated
  | retryBudgetExceeded
  | unknownHandoffTarget (target : AgentRole)
  | workerFault (kind : FaultKind)
  | halted (status : RunStatus)
  | finished (status : RunStatus)
  deriving DecidableEq

/-- From the spec (section 3, `RunState` history): a
(step identifier, outcome, timestamp) entry. -/
structure HistoryEntry where
  stepId : String
  outcome : Outcome
  timestamp : Nat
  deriving DecidableEq

/-- From the spec (section 3, `RunState`): task identifier, workflow
identifier, current step identifier, overall status, append-only history,
per-step retry counters (an association list from step identifier to
counter). The framework template's `handleTask` pseudocode reads
`state.status` and `state.currentStepId` of this record. -/
structure RunState where
  taskId : String
  workflowId : String
  currentStepId : String
  status : RunStatus
  history : List HistoryEntry
  retries : List (String × Nat)
  deriving DecidableEq

/-- Reads a step's retry counter; a step with no entry has counter 0. -/
def lookupRetry (retries : List (String × Nat)) (stepId : String) : Nat :=
  match retries.find? (fun p => p.1 == stepId) with
  | some p => p.2
  | none => 0

/-- Writes a step's retry counter. -/
def setRetry (retries : List (String × Nat)) (stepId : String) (n : Nat) :
    List (String × Nat) :=
  (stepId, n) :: retries.filter (fun p => !(p.1 == stepId))

/-- Modelled from the spec: steps 5–9 of the engine's transition algorithm
(section 4.2), which no code under `src/` implements (`handleTask` in the
template leaves `updateState` abstract). Applies a transition rule's
`NextStepDecision` to the run state: halt on `waiting_human`/`blocked`
(step 6); a decision with no next step persists its status — `completed`
terminal per step 7, `failed` being the spec's explicit terminal decision;
a repeat edge increments the step's retry counter and, past the configured
maximum, forces `waiting_human` with the counter capped at the maximum
(step 8, scenario B); otherwise move to the next step (step 9). -/
def applyDecision (step : WorkflowStep) (d : NextStepDecision) (now : Nat)
    (s : RunState) : RunState :=
  if d.status = RunStatus.waiting_human ∨ d.status = RunStatus.blocked then
    { s with status := d.status,
             history := s.history ++ [{ stepId := step.id, outcome := Outcome.halted d.status, timestamp := now }] }
  else
    match d.nextStepId with
    | none =>
        { s with status := d.status,
                 history := s.history ++ [{ stepId := step.id, outcome := Outcome.finished d.status, timestamp := now }] }
    | some nid =>
        if nid = step.id then
          if step.maxRetries < lookupRetry s.retries step.id + 1 then
            { s with status := RunStatus.waiting_human,
                     retries := setRetry s.retries step.id step.maxRetries,
                     history := s.history ++ [{ stepId := step.id, outcome := Outcome.retryBudgetExceeded, timestamp := now }] }
          else
            { s with status := RunStatus.in_progress,
                     retries := setRetry s.retries step.id (lookupRetry s.retries step.id + 1),
                     history := s.history ++ [{ stepId := step.id, outcome := Outcome.repeated, timestamp := now }] }
        else
          { s with currentStepId := nid, status := d.status,
                   history := s.history ++ [{ stepId := step.id, outcome := Outcome.advanced nid, timestamp := now }] }

/-- Whether some step of the workflow declares the given role. -/
def hasStepWithRole (wf : Workflow) (role : AgentRole) : Bool :=
  wf.steps.any (fun st => st.agentRole == role)

/-- Modelled from the spec: the edge-case policy of section 4.2 — a worker
output declaring `nextAction` `handoff` to an agent whose role matches no
workflow step is an `UnknownHandoffTarget`; returns that role when the
handoff target is unknown. -/
def unknownHandoff (wf : Workflow) (out : AgentOutput) : Option AgentRole :=
  match out.nextAction, out.handoffTo with
  | NextAction.handoff, some (HandoffTarget.toAgent ref) =>
      if hasStepWithRole wf ref.role then none else some ref.role
  | _, _ => none

/-- Modelled from the spec: one engine iteration's decision handling
(section 4.2), which no code under `src/` implements. An unknown handoff
target halts the run with status `blocked` and records the mismatch in
history (never silently dropped); otherwise the step's transition rule is
applied through `applyDecision`. -/
def engineApply (wf : Workflow) (step : WorkflowStep) (out : AgentOutput) (now : Nat)
    (s : RunState) : RunState :=
  match unknownHandoff wf out with
  | some role =>
      { s with status := RunStatus.blocked,
               history := s.history ++ [{ stepId := step.id, outcome := Outcome.unknownHandoffTarget role, timestamp := now }] }
  | none => applyDecision step (step.transition out) now s

/-- Modelled from the spec: the failure semantics of section 4.2, which no
code under `src/` implements — a worker invocation fault is retried using
the step's retry counter; once the budget is exhausted the run moves to
`waiting_human` (never `failed`) with the fault and the escalation recorded
in history. -/
def engineFault (step : WorkflowStep) (fk : FaultKind) (now : Nat) (s : RunState) :
    RunState :=
  if step.maxRetries < lookupRetry s.retries step.id + 1 then
    { s with status := RunStatus.waiting_human,
             retries := setRetry s.retries step.id step.maxRetries,
             history := s.history ++
               [{ stepId := step.id, outcome := Outcome.workerFault fk, timestamp := now },
                { stepId := step.id, outcome := Outcome.retryBudgetExceeded, timestamp := now }] }
  else
    { s with status := RunStatus.in_progress,
             retries := setRetry s.retries step.id (lookupRetry s.retries step.id + 1),
             history := s.history ++ [{ stepId := step.id, outcome := Outcome.workerFault fk, timestamp := now }] }

/-- From the framework template (section 7, `handleTask`): the orchestrator
loop's guard, `while state.status not in ["completed", "waiting_human"]`. -/
def loopContinues (status : RunStatus) : Bool :=
  !(status == RunStatus.completed || status == RunStatus.waiting_human)

/-- From the framework template (section 7, `handleTask`): the orchestrator
loop, fuelled to stay total. `iter` is one loop body — look up the current
step, select artifacts, run the role's agent, persist artifacts, apply the
step's transition and update the state. -/
def handleTaskLoop (iter : RunState → RunState) : Nat → RunState → RunState
  | 0, s => s
  | fuel + 1, s => if loopContinues s.status then handleTaskLoop iter fuel (iter s) else s

/-- Counts how many further loop-body executions (worker invocations)
`handleTask`'s loop performs from a given state within the given fuel. -/
def stepsExecuted (iter : RunState → RunState) : Nat → RunState → Nat
  | 0, _ => 0
  | fuel + 1, s => if loopContinues s.status then stepsExecuted iter fuel (iter s) + 1 else 0

/-- From the spec (section 7, error taxonomy): the routing failure. -/
inductive RoutingError where
  | noMatchingWorkflow
  deriving DecidableEq

/-- Modelled from the spec: the Task Router's filter (section 4.1) —
the available definitions whose applicable-task-type set contains the
task's type. The router itself is only an extension point in the template
(`selectWorkflow` is not implemented under `src/`). -/
def matchingDefs (task : Task) (defs : List Workflow) : List Workflow :=
  defs.filter (fun w => w.applicableTaskTypes.contains task.type)

/-- Modelled from the spec: the router's fixed deterministic ordering —
the first matching definition by definition identifier ascending. -/
def firstById (w : Workflow) (ws : List Workflow) : Workflow :=
  ws.foldl (fun best cand => if cand.id < best.id then cand else best) w

/-- Modelled from the spec: `selectWorkflow(task, availableDefinitions)`
(section 4.1), not implemented under `src/`. Filters definitions matching
`task.type`; a preferred workflow identifier wins when it names a matching
definition; otherwise the first match by identifier ascending is chosen;
fails with `NoMatchingWorkflow` when no definition matches. -/
def selectWorkflow (task : Task) (defs : List Workflow) (preferredId : Option String) :
    Except RoutingError Workflow :=
  match matchingDefs task defs with
  | [] => Except.error RoutingError.noMatchingWorkflow
  | w :: ws =>
      match preferredId.bind (fun pid => (w :: ws).find? (fun c => c.id == pid)) with
      | some c => Except.ok c
      | none => Except.ok (firstById w ws)

/-- Modelled from the spec: a fresh `RunState` bound to a workflow,
starting at the workflow's first step with status `in_progress`. -/
def initRunState (taskId : String) (wf : Workflow) : RunState :=
  { taskId := taskId, workflowId := wf.id,
    currentStepId := match wf.steps with | [] => "" | st :: _ => st.id,
    status := RunStatus.in_progress, history := [], retries := [] }

/-- Modelled from the spec: `initOrLoad(taskId, workflow)` of the Run State
Store (section 4.5), not implemented under `src/` — returns the existing
run for the task, or creates and stores a fresh one. -/
def initOrLoad (store : List RunState) (taskId : String) (wf : Workflow) :
    RunState × List RunState :=
  match store.find? (fun s => s.taskId == taskId) with
  | some s => (s, store)
  | none => (initRunState taskId wf, store ++ [initRunState taskId wf])

/-- From the framework template (section 7, `handleTask`) combined with the
spec's router contract: the routing prefix of `handleTask` — select a
workflow for the task, then (and only then) initialise or load its run
state. A routing failure is surfaced to the caller with the run state
store untouched. -/
def routeTask (task : Task) (defs : List Workflow) (preferredId : Option String)
    (store : List RunState) : Except RoutingError RunState × List RunState :=
  match selectWorkflow task defs preferredId with
  | Except.error e => (Except.error e, store)
  | Except.ok wf =>
      match initOrLoad store task.id wf with
      | (s, store2) => (Except.ok s, store2)

/-- Modelled from the spec: the Artifact Store failure of a single
artifact write during a batch append. -/
inductive AppendError where
  | appendFailed
  deriving DecidableEq

/-- Modelled from the spec: the append-only Artifact Store (section 4.4),
not implemented under `src/` — rows in creation order. -/
structure ArtifactStore where
  rows : List Artifact
  deriving DecidableEq

/-- Modelled from the spec: writing one artifact, which may fail; `fail`
simulates a storage failure on a given artifact. -/
def appendOne (fail : Artifact → Bool) (st : ArtifactStore) (a : Artifact) :
    Except AppendError ArtifactStore :=
  if fail a then Except.error AppendError.appendFailed
  else Except.ok { rows := st.rows ++ [a] }

/-- Modelled from the spec: staging a whole batch of artifacts, stopping at
the first failing write. -/
def appendAll (fail : Artifact → Bool) :
    ArtifactStore → List Artifact → Except AppendError ArtifactStore
  | st, [] => Except.ok st
  | st, a :: rest =>
      match appendOne fail st a with
      | Except.error e => Except.error e
      | Except.ok st2 => appendAll fail st2 rest

/-- Modelled from the spec: `append(taskId, artifacts)` of the Artifact
Store (section 4.4), all-or-nothing per call — the batch is staged via
`appendAll` and committed only if every write succeeded; a failure partway
through leaves the previously visible store in place. -/
def append (fail : Artifact → Bool) (st : ArtifactStore) (arts : List Artifact) :
    Except AppendError Unit × ArtifactStore :=
  match appendAll fail st arts with
  | Except.ok st2 => (Except.ok (), st2)
  | Except.error e => (Except.error e, st)

/-- Modelled from the spec: `listByTask(taskId)` — the task's artifacts in
creation (insertion) order. -/
def listByTask (st : ArtifactStore) (taskId : String) : List Artifact :=
  st.rows.filter (fun a => a.taskId == taskId)

/-- Computable lexicographic order on character lists by code point, used
for the store's deterministic tie-breaks. -/
def charListLt : List Char → List Char → Bool
  | _, [] => false
  | [], _ :: _ => true
  | c :: cs, d :: ds =>
      if c.val < d.val then true
      else if d.val < c.val then false
      else charListLt cs ds

/-- Computable string order by code points. -/
def strLt (a b : String) : Bool :=
  charListLt a.data b.data

/-- `a` wins over `b` under the spec's `latestOfType` tie-break: latest
timestamp, ties broken by artifact identifier. -/
def laterThan (a b : Artifact) : Bool :=
  strLt b.createdAt a.createdAt || (b.createdAt == a.createdAt && strLt b.id a.id)

/-- Modelled from the spec: `latestOfType(taskId, type)` — the latest
artifact of the given type for the task, with the stable tie-break. -/
def latestOfType (st : ArtifactStore) (taskId ty : String) : Option Artifact :=
  ((listByTask st taskId).filter (fun a => a.artifactType == ty)).foldl
    (fun best a =>
      match best with
      | none => some a
      | some b => if laterThan a b then some a else some b)
    none

/-! ## Helper lemmas -/

theorem lookupRetry_setRetry (rs : List (String × Nat)) (k : String) (n : Nat) :
    lookupRetry (setRetry rs k n) k = n := by
  simp [lookupRetry, setRetry, List.find?]

theorem lookupRetry_nonneg (rs : List (String × Nat)) (k : String) :
    0 ≤ lookupRetry rs k :=
  Nat.zero_le _

theorem appendAll_ok_rows (fail : Artifact → Bool) :
    ∀ (arts : List Artifact) (st st2 : ArtifactStore),
      appendAll fail st arts = Except.ok st2 → st2.rows = st.rows ++ arts
  | [], st, st2, h => by
      simp [appendAll] at h
      simp [← h]
  | a :: rest, st, st2, h => by
      by_cases hf : fail a = true
      · simp [appendAll, appendOne, hf] at h
      · simp [appendAll, appendOne, hf] at h
        have ih := appendAll_ok_rows fail rest { rows := st.rows ++ [a] } st2 h
        simpa using ih

theorem createAgents_ok_iff (specs : AgentsSpecsFile) (m : AgentMap) :
    createAgentsFromSpecs specs = Except.ok m ↔
      ∃ ps archs cs rs os,
        lookupSpec specs "planner" = some ps ∧
        lookupSpec specs "architect" = some archs ∧
        lookupSpec specs "coder" = some cs ∧
        lookupSpec specs "reviewer" = some rs ∧
        lookupSpec specs "ops" = some os ∧
        m = { planner := mkPlannerAgent ps, architect := mkArchitectAgent archs,
              coder := mkCoderAgent cs, reviewer := mkReviewerAgent rs,
              ops := mkOpsAgent os } := by
  cases hp : lookupSpec specs "planner" <;>
    cases ha : lookupSpec specs "architect" <;>
      cases hc : lookupSpec specs "coder" <;>
        cases hr : lookupSpec specs "reviewer" <;>
          cases ho : lookupSpec specs "ops" <;>
            simp [createAgentsFromSpecs, hp, ha, hc, hr, ho, eq_comm]

/-! ## Theorems for the claims -/

/-- Claim C4: for every `AgentInput`, the `run` method of each shipped
concrete agent (`PlannerAgent`, `ArchitectAgent`, `CoderAgent`,
`ReviewerAgent`, `OpsAgent`) throws its not-implemented error and never
returns an `AgentOutput`, so no worker invocation through the shipped
agents can succeed or produce artifacts. -/
theorem shipped_agent_run_always_throws (spec : AgentSpec) (input : AgentInput) :
    (mkPlannerAgent spec).run input = Except.error plannerNotImplementedMsg ∧
    (mkArchitectAgent spec).run input = Except.error architectNotImplementedMsg ∧
    (mkCoderAgent spec).run input = Except.error coderNotImplementedMsg ∧
    (mkReviewerAgent spec).run input = Except.error reviewerNotImplementedMsg ∧
    (mkOpsAgent spec).run input = Except.error opsNotImplementedMsg :=
  ⟨rfl, rfl, rfl, rfl, rfl⟩

/-- An artifact carrying the template's `"plan"` type tag, well formed for
the TypeScript `Artifact` record of `types.ts`. -/
def planArtifact : Artifact :=
  { id := "art-plan-1", taskId := "task-1", artifactType := "plan",
    content := "a roadmap", createdBy := { id := "planner", role := AgentRole.planner },
    createdAt := "2024-01-01T00:00:00Z" }

/-- Claim C6, counterexample: the artifact type tag `"plan"` — a member of
the template's own `Artifact` type union — is representable as an
`Artifact` yet lies outside the claimed closed set
{spec, design, patch, review, deployment, note, log}. -/
theorem artifactType_escapes_claimed_set :
    planArtifact.artifactType = TemplateArtifactType.plan.tag ∧
    planArtifact.artifactType ∉ specClaimedArtifactTypeTags := by
  exact ⟨rfl, by decide⟩

/-- The TypeScript `Artifact` record accepts an arbitrary string as its
`artifactType` field. -/
def mkArtifactOfType (ty : String) : Artifact :=
  { id := "art-1", taskId := "task-1", artifactType := ty, content := "",
    createdBy := { id := "planner", role := AgentRole.planner },
    createdAt := "2024-01-01T00:00:00Z" }

/-- Claim C6, amended: the framework template's artifact type tag ranges
over the closed nine-element set
{spec, design, plan, patch, pr, review, deployment, log, note}, while the
TypeScript `Artifact` record constrains `artifactType` only to `string`,
accepting any tag. -/
theorem artifact_types_template_closed_set (t : TemplateArtifactType) (ty : String) :
    t.tag ∈ templateArtifactTypeTags ∧ (mkArtifactOfType ty).artifactType = ty := by
  refine ⟨?_, rfl⟩
  cases t <;> decide

/-- Claim C5: `createAgentsFromSpecs` succeeds exactly when every one of the
five role definitions is present in the specs file, throws the
configuration error otherwise, and the resulting role-to-agent map — one
agent per role by the type of `AgentMap` — binds each role field to an
agent of that role. (In this pure embedding the returned map is a value
and cannot be mutated afterwards.) -/
theorem createAgentsFromSpecs_validates_roles (specs : AgentsSpecsFile) :
    ((∃ m, createAgentsFromSpecs specs = Except.ok m) ↔
        ((lookupSpec specs "planner").isSome = true ∧
         (lookupSpec specs "architect").isSome = true ∧
         (lookupSpec specs "coder").isSome = true ∧
         (lookupSpec specs "reviewer").isSome = true ∧
         (lookupSpec specs "ops").isSome = true)) ∧
    ((¬ ∃ m, createAgentsFromSpecs specs = Except.ok m) →
        createAgentsFromSpecs specs = Except.error missingAgentDefsMsg) ∧
    (∀ m, createAgentsFromSpecs specs = Except.ok m →
        m.planner.role = AgentRole.planner ∧
        m.architect.role = AgentRole.architect ∧
        m.coder.role = AgentRole.coder ∧
        m.reviewer.role = AgentRole.reviewer ∧
        m.ops.role = AgentRole.ops) := by
  refine ⟨?_, ?_, ?_⟩ <;>
    cases hp : lookupSpec specs "planner" <;>
      cases ha : lookupSpec specs "architect" <;>
        cases hc : lookupSpec specs "coder" <;>
          cases hr : lookupSpec specs "reviewer" <;>
            cases ho : lookupSpec specs "ops" <;>
              simp [createAgentsFromSpecs, hp, ha, hc, hr, ho,
                mkPlannerAgent, mkArchitectAgent, mkCoderAgent, mkReviewerAgent, mkOpsAgent]

/-- A sample agent definition, used as the concrete input of witnesses. -/
def sampleAgentSpec (r : String) : AgentSpec :=
  { name := r, role := r, description := "sample definition", input := [],
    output := "", tools_available := none, validation_rules := none,
    handoff_criteria := none, failure_handling := none }

/-- A sample well-formed specs file holding all five role definitions. -/
def sampleSpecs : AgentsSpecsFile :=
  { agents :=
      [("planner", sampleAgentSpec "planner"),
       ("architect", sampleAgentSpec "architect"),
       ("coder", sampleAgentSpec "coder"),
       ("reviewer", sampleAgentSpec "reviewer"),
       ("ops", sampleAgentSpec "ops")],
    workflow_handoff := none }

/-- The agent map that `createAgentsFromSpecs` builds from `sampleSpecs`. -/
def sampleAgentMap : AgentMap :=
  { planner := mkPlannerAgent (sampleAgentSpec "planner"),
    architect := mkArchitectAgent (sampleAgentSpec "architect"),
    coder := mkCoderAgent (sampleAgentSpec "coder"),
    reviewer := mkReviewerAgent (sampleAgentSpec "reviewer"),
    ops := mkOpsAgent (sampleAgentSpec "ops") }

/-- Witness for claim C5 at the sample specs file. -/
theorem createAgentsFromSpecs_validates_roles_witness :
    sampleAgentMap.planner.role = AgentRole.planner ∧
    sampleAgentMap.architect.role = AgentRole.architect ∧
    sampleAgentMap.coder.role = AgentRole.coder ∧
    sampleAgentMap.reviewer.role = AgentRole.reviewer ∧
    sampleAgentMap.ops.role = AgentRole.ops :=
  (createAgentsFromSpecs_validates_roles sampleSpecs).2.2 sampleAgentMap rfl

/-- Claim C10: every agent constructed by `createAgentsFromSpecs` has its
`id` equal to its role name, `makeRef` returns exactly `{ id, role }`, and
the back-reference produced by a constructed agent does not depend on its
spec — so `AgentRef`s cannot distinguish two workers holding the same
role. -/
theorem agent_ids_equal_role_names (specs : AgentsSpecsFile) (m : AgentMap)
    (hm : createAgentsFromSpecs specs = Except.ok m) (a : Agent) (s1 s2 : AgentSpec) :
    m.planner.id = "planner" ∧ m.architect.id = "architect" ∧ m.coder.id = "coder" ∧
    m.reviewer.id = "reviewer" ∧ m.ops.id = "ops" ∧
    Agent.makeRef a = { id := a.id, role := a.role } ∧
    (mkPlannerAgent s1).makeRef = (mkPlannerAgent s2).makeRef ∧
    (mkArchitectAgent s1).makeRef = (mkArchitectAgent s2).makeRef ∧
    (mkCoderAgent s1).makeRef = (mkCoderAgent s2).makeRef ∧
    (mkReviewerAgent s1).makeRef = (mkReviewerAgent s2).makeRef ∧
    (mkOpsAgent s1).makeRef = (mkOpsAgent s2).makeRef := by
  obtain ⟨ps, archs, cs, rs, os, _, _, _, _, _, rfl⟩ :=
    (createAgents_ok_iff specs m).mp hm
  exact ⟨rfl, rfl, rfl, rfl, rfl, rfl, rfl, rfl, rfl, rfl, rfl⟩

/-- Witness for claim C10 at the sample specs file. -/
theorem agent_ids_equal_role_names_witness :
    sampleAgentMap.ops.id = "ops" ∧
    (mkOpsAgent (sampleAgentSpec "a")).makeRef = (mkOpsAgent (sampleAgentSpec "b")).makeRef := by
  obtain ⟨h1, h2, h3, h4, h5, h6, h7, h8, h9, h10, h11⟩ :=
    agent_ids_equal_role_names sampleSpecs sampleAgentMap rfl
      (mkOpsAgent (sampleAgentSpec "ops")) (sampleAgentSpec "a") (sampleAgentSpec "b")
  exact ⟨h5, h11⟩

/-- Claim C1: retry counters are non-negative and never exceed the step's
configured maximum (invariant preserved by every engine iteration —
decision application, unknown-handoff handling, and the worker-fault
path); and when a repeat edge or a retried worker fault would push the
counter past the maximum, the engine forces status `waiting_human` — never
`failed`, and never another loop iteration at the same step — regardless
of the status the transition rule requested. -/
theorem retry_counter_bounded_forces_waiting_human
    (wf : Workflow) (step : WorkflowStep) (out : AgentOutput)
    (d : NextStepDecision) (fk : FaultKind) (now : Nat) (s : RunState)
    (hb : lookupRetry s.retries step.id ≤ step.maxRetries) :
    0 ≤ lookupRetry s.retries step.id ∧
    lookupRetry (engineApply wf step out now s).retries step.id ≤ step.maxRetries ∧
    lookupRetry (applyDecision step d now s).retries step.id ≤ step.maxRetries ∧
    lookupRetry (engineFault step fk now s).retries step.id ≤ step.maxRetries ∧
    (d.nextStepId = some step.id →
      d.status ≠ RunStatus.waiting_human →
      d.status ≠ RunStatus.blocked →
      lookupRetry s.retries step.id = step.maxRetries →
      (applyDecision step d now s).status = RunStatus.waiting_human ∧
      (applyDecision step d now s).status ≠ RunStatus.failed ∧
      lookupRetry (applyDecision step d now s).retries step.id = step.maxRetries) ∧
    (lookupRetry s.retries step.id = step.maxRetries →
      (engineFault step fk now s).status = RunStatus.waiting_human ∧
      (engineFault step fk now s).status ≠ RunStatus.failed ∧
      lookupRetry (engineFault step fk now s).retries step.id = step.maxRetries) := by
  have happ : ∀ d' : NextStepDecision,
      lookupRetry (applyDecision step d' now s).retries step.id ≤ step.maxRetries := by
    intro d'
    unfold applyDecision
    split
    · exact hb
    · split
      · exact hb
      · split
        · split
          · rw [lookupRetry_setRetry]
          · rw [lookupRetry_setRetry]; omega
        · exact hb
  have hfault : lookupRetry (engineFault step fk now s).retries step.id ≤ step.maxRetries := by
    unfold engineFault
    split
    · rw [lookupRetry_setRetry]
    · rw [lookupRetry_setRetry]; omega
  have heng : lookupRetry (engineApply wf step out now s).retries step.id ≤ step.maxRetries := by
    unfold engineApply
    split
    · exact hb
    · exact happ _
  refine ⟨Nat.zero_le _, heng, happ d, hfault, ?_, ?_⟩
  · intro hnext hwh hbl hmax
    have hcond : ¬ (d.status = RunStatus.waiting_human ∨ d.status = RunStatus.blocked) := by
      rintro (h | h)
      · exact hwh h
      · exact hbl h
    have hres : (applyDecision step d now s).status = RunStatus.waiting_human ∧
        lookupRetry (applyDecision step d now s).retries step.id = step.maxRetries := by
      simp only [applyDecision, if_neg hcond, hnext, hmax]
      simp [Nat.lt_succ_self, lookupRetry_setRetry]
    refine ⟨hres.1, ?_, hres.2⟩
    rw [hres.1]
    decide
  · intro hmax
    have hres : (engineFault step fk now s).status = RunStatus.waiting_human ∧
        lookupRetry (engineFault step fk now s).retries step.id = step.maxRetries := by
      simp only [engineFault, hmax]
      simp [Nat.lt_succ_self, lookupRetry_setRetry]
    refine ⟨hres.1, ?_, hres.2⟩
    rw [hres.1]
    decide

/-- Scenario B shape: a transition rule that always requests a repeat of
the Implement step. -/
def alwaysRepeatImplement (_ : AgentOutput) : NextStepDecision :=
  { nextStepId := some "implement", status := RunStatus.in_progress }

/-- The Plan step of the `bugfix-fast-flow` example workflow. -/
def planStep : WorkflowStep :=
  { id := "plan", name := "Plan", agentRole := AgentRole.planner, maxRetries := 2,
    inputSelector := fun _ arts => arts,
    transition := fun _ => { nextStepId := some "implement", status := RunStatus.in_progress } }

/-- The Implement step of the `bugfix-fast-flow` example workflow, with a
configured retry maximum of 2 and an always-repeat transition rule. -/
def implementStep : WorkflowStep :=
  { id := "implement", name := "Implement", agentRole := AgentRole.coder, maxRetries := 2,
    inputSelector := fun _ arts => arts,
    transition := alwaysRepeatImplement }

/-- The Review step of the `bugfix-fast-flow` example workflow. -/
def reviewStep : WorkflowStep :=
  { id := "review", name := "Review", agentRole := AgentRole.reviewer, maxRetries := 2,
    inputSelector := fun _ arts => arts,
    transition := fun _ => { nextStepId := none, status := RunStatus.completed } }

/-- The repository's example `bugfix-fast-flow` workflow
(Plan → Implement → Review); it has no step with role `ops`. -/
def bugfixFastFlow : Workflow :=
  { id := "bugfix-fast-flow", name := "Bugfix Fast Flow",
    applicableTaskTypes := ["bugfix", "feature"],
    steps := [planStep, implementStep, reviewStep] }

/-- A worker output requesting to continue, with no artifacts. -/
def continueOut : AgentOutput :=
  { newArtifacts := [], nextAction := NextAction.continue, handoffTo := none }

/-- A run of `bugfix-fast-flow` whose Implement retry counter already
stands at the configured maximum of 2. -/
def exhaustedRun : RunState :=
  { taskId := "task-1", workflowId := "bugfix-fast-flow", currentStepId := "implement",
    status := RunStatus.in_progress, history := [], retries := [("implement", 2)] }

/-- Witness for claim C1: with the Implement retry counter at its maximum
of 2, a repeat decision — even one requesting status `failed` — and a
retried timeout fault both force `waiting_human`, with the counter capped
at 2. -/
theorem retry_counter_bounded_forces_waiting_human_witness :
    (applyDecision implementStep { nextStepId := some "implement", status := RunStatus.failed }
        0 exhaustedRun).status = RunStatus.waiting_human ∧
    (engineFault implementStep FaultKind.timeout 0 exhaustedRun).status = RunStatus.waiting_human ∧
    lookupRetry (engineFault implementStep FaultKind.timeout 0 exhaustedRun).retries "implement" = 2 := by
  obtain ⟨-, -, -, -, h5, h6⟩ :=
    retry_counter_bounded_forces_waiting_human bugfixFastFlow implementStep continueOut
      { nextStepId := some "implement", status := RunStatus.failed }
      FaultKind.timeout 0 exhaustedRun (by decide)
  obtain ⟨ha, -, -⟩ := h5 rfl (by decide) (by decide) (by decide)
  obtain ⟨hf, -, hr⟩ := h6 (by decide)
  exact ⟨ha, hf, hr⟩

/-- One `handleTask` loop-body iteration over the Review step of
`bugfix-fast-flow`, used to observe how many further steps the
orchestrator loop executes from a given run state. -/
def reviewIter (s : RunState) : RunState :=
  engineApply bugfixFastFlow reviewStep continueOut 0 s

/-- A run of `bugfix-fast-flow` whose status is `failed` (the spec lets an
explicit terminal decision of a transition rule, or an external operator
action, set `failed`). -/
def failedRun : RunState :=
  { taskId := "task-1", workflowId := "bugfix-fast-flow", currentStepId := "review",
    status := RunStatus.failed, history := [], retries := [] }

/-- Claim C2, evaluation at the failing input: `handleTask`'s loop guard
`while state.status not in ["completed", "waiting_human"]` does not treat
`failed` as terminal — from a run whose status is `failed` the loop
executes a further step — whereas `completed` does exit the loop. -/
theorem handleTask_loop_continues_past_failed :
    failedRun.status = RunStatus.failed ∧
    loopContinues RunStatus.failed = true ∧
    stepsExecuted reviewIter 1 failedRun = 1 ∧
    loopContinues RunStatus.completed = false :=
  ⟨rfl, rfl, rfl, rfl⟩

/-- An in-progress run of `bugfix-fast-flow` sitting at the Review step. -/
def activeRun : RunState :=
  { taskId := "task-1", workflowId := "bugfix-fast-flow", currentStepId := "review",
    status := RunStatus.in_progress, history := [], retries := [] }

/-- A transition decision carrying status `blocked` and no next step. -/
def blockedDecision : NextStepDecision :=
  { nextStepId := none, status := RunStatus.blocked }

/-- Claim C3, evaluation at the failing input: when the step's transition
decision carries `blocked`, the engine persists the run with status
`blocked` — but `handleTask`'s loop guard only exits on `completed` and
`waiting_human`, so the loop immediately executes a further step instead
of halting; a `waiting_human` decision, by contrast, does halt the loop. -/
theorem handleTask_loop_continues_past_blocked :
    (applyDecision reviewStep blockedDecision 0 activeRun).status = RunStatus.blocked ∧
    loopContinues RunStatus.blocked = true ∧
    stepsExecuted reviewIter 1 (applyDecision reviewStep blockedDecision 0 activeRun) = 1 ∧
    loopContinues RunStatus.waiting_human = false :=
  ⟨rfl, rfl, rfl, rfl⟩

/-- Helper for the handoff edge-case policy: whenever a worker's output
declares `nextAction` `handoff` to an agent whose role matches no step of
the bound workflow, the engine iteration sets status `blocked` and appends
a history entry recording the `UnknownHandoffTarget` mismatch — the
request is never silently dropped. (Whether the orchestrator loop then
halts is a separate question about `handleTask`'s guard.) -/
theorem unknown_handoff_target_blocks
    (wf : Workflow) (step : WorkflowStep) (out : AgentOutput) (ref : AgentRef)
    (now : Nat) (s : RunState)
    (hact : out.nextAction = NextAction.handoff)
    (htgt : out.handoffTo = some (HandoffTarget.toAgent ref))
    (hrole : hasStepWithRole wf ref.role = false) :
    (engineApply wf step out now s).status = RunStatus.blocked ∧
    (engineApply wf step out now s).history =
      s.history ++
        [{ stepId := step.id, outcome := Outcome.unknownHandoffTarget ref.role,
           timestamp := now }] := by
  have hu : unknownHandoff wf out = some ref.role := by
    simp [unknownHandoff, hact, htgt, hrole]
  simp [engineApply, hu]

/-- Scenario C: the Review worker requests a handoff to role `ops`. -/
def opsHandoffOut : AgentOutput :=
  { newArtifacts := [], nextAction := NextAction.handoff,
    handoffTo := some (HandoffTarget.toAgent { id := "ops", role := AgentRole.ops }) }

/-- Claim C7, evaluation at the failing input (scenario C): a Review
worker's handoff to role `ops` against `bugfix-fast-flow`, which has no
`ops` step, makes the engine set status `blocked` and record the
`UnknownHandoffTarget` mismatch in history — the request is not silently
dropped — but `handleTask`'s loop guard
`while state.status not in ["completed", "waiting_human"]` does not exit
on `blocked`, so the orchestrator loop executes a further step instead of
halting the run. -/
theorem unknown_handoff_blocks_but_loop_continues :
    (engineApply bugfixFastFlow reviewStep opsHandoffOut 7 activeRun).status = RunStatus.blocked ∧
    (engineApply bugfixFastFlow reviewStep opsHandoffOut 7 activeRun).history =
      activeRun.history ++
        [{ stepId := "review", outcome := Outcome.unknownHandoffTarget AgentRole.ops,
           timestamp := 7 }] ∧
    loopContinues RunStatus.blocked = true ∧
    stepsExecuted reviewIter 1 (engineApply bugfixFastFlow reviewStep opsHandoffOut 7 activeRun) = 1 :=
  ⟨rfl, rfl, rfl, rfl⟩

theorem matchingDefs_eq_nil_iff (task : Task) (defs : List Workflow) :
    matchingDefs task defs = [] ↔ ∀ w ∈ defs, task.type ∉ w.applicableTaskTypes := by
  simp [matchingDefs, List.filter_eq_nil_iff, List.elem_iff]

/-- Claim C8: `selectWorkflow` fails with `NoMatchingWorkflow` exactly when
no available definition's applicable-task-type set contains the task's
type (never replaced by a default workflow), and in that case the routing
prefix of `handleTask` surfaces the error with the run state store
untouched — no `RunState` is created. -/
theorem selectWorkflow_fails_iff_no_match (task : Task) (defs : List Workflow)
    (preferredId : Option String) (store : List RunState) :
    (selectWorkflow task defs preferredId = Except.error RoutingError.noMatchingWorkflow ↔
        ∀ w ∈ defs, task.type ∉ w.applicableTaskTypes) ∧
    (selectWorkflow task defs preferredId = Except.error RoutingError.noMatchingWorkflow →
        routeTask task defs preferredId store =
          (Except.error RoutingError.noMatchingWorkflow, store)) := by
  have hsel : selectWorkflow task defs preferredId =
      Except.error RoutingError.noMatchingWorkflow ↔ matchingDefs task defs = [] := by
    cases hm : matchingDefs task defs with
    | nil => simp [selectWorkflow, hm]
    | cons w ws =>
        cases hf : preferredId.bind (fun pid => (w :: ws).find? (fun c => c.id == pid)) with
        | none => simp [selectWorkflow, hm, hf]
        | some c => simp [selectWorkflow, hm, hf]
  constructor
  · rw [hsel]
    exact matchingDefs_eq_nil_iff task defs
  · intro h
    simp [routeTask, h]

/-- Scenario D: a task of type `"docs"`. -/
def docsTask : Task :=
  { id := "task-docs", projectId := "proj-1", type := "docs", title := "Write docs",
    description := "document the API", source := none, metadata := [] }

/-- Witness for claim C8, scenario D: routing a `"docs"` task against a
store of workflows that only declare `["bugfix", "feature"]` fails with
`NoMatchingWorkflow` and leaves the run state store empty. -/
theorem selectWorkflow_fails_iff_no_match_witness :
    routeTask docsTask [bugfixFastFlow] none [] =
      (Except.error RoutingError.noMatchingWorkflow, []) :=
  (selectWorkflow_fails_iff_no_match docsTask [bugfixFastFlow] none []).2 rfl

/-- Claim C9: Artifact Store append is atomic per call — if a
multi-artifact append fails partway through, the visible store is the old
store and `listByTask` / `latestOfType` observe zero new artifacts; if it
succeeds, every artifact of the batch becomes visible to `listByTask`. -/
theorem artifact_append_all_or_nothing (fail : Artifact → Bool) (st : ArtifactStore)
    (arts : List Artifact) (taskId ty : String) :
    ((append fail st arts).1 = Except.error AppendError.appendFailed →
        (append fail st arts).2 = st ∧
        listByTask (append fail st arts).2 taskId = listByTask st taskId ∧
        latestOfType (append fail st arts).2 taskId ty = latestOfType st taskId ty) ∧
    ((append fail st arts).1 = Except.ok () →
        listByTask (append fail st arts).2 taskId =
          listByTask st taskId ++ arts.filter (fun a => a.taskId == taskId)) := by
  cases h : appendAll fail st arts with
  | ok st2 =>
      have hrows := appendAll_ok_rows fail arts st st2 h
      constructor
      · intro hc
        simp [append, h] at hc
      · intro _
        simp [append, h, listByTask, hrows, List.filter_append]
  | error e =>
      constructor
      · intro _
        simp [append, h]
      · intro hc
        simp [append, h] at hc

/-- A patch artifact for the atomicity witness. -/
def patchArtifact : Artifact :=
  { id := "a1", taskId := "task-1", artifactType := "patch", content := "a diff",
    createdBy := { id := "coder", role := AgentRole.coder }, createdAt := "t1" }

/-- A note artifact for the atomicity witness; the simulated storage
failure hits this second artifact of the batch. -/
def noteArtifact : Artifact :=
  { id := "a2", taskId := "task-1", artifactType := "note", content := "summary",
    createdBy := { id := "coder", role := AgentRole.coder }, createdAt := "t2" }

/-- Simulated storage failure on the second artifact of the batch. -/
def failOnNote (a : Artifact) : Bool :=
  a.id == "a2"

/-- Witness for claim C9: a simulated failure on the second artifact of a
two-artifact append — after the first write already succeeded — leaves
zero new artifacts visible to `listByTask`. -/
theorem artifact_append_all_or_nothing_witness :
    listByTask (append failOnNote { rows := [] } [patchArtifact, noteArtifact]).2 "task-1" =
      listByTask ({ rows := [] } : ArtifactStore) "task-1" :=
  ((artifact_append_all_or_nothing failOnNote { rows := [] } [patchArtifact, noteArtifact]
      "task-1" "patch").1 rfl).2.1

end AgentPlanner
